import Mathlib

/-!
# Shallow embedding of the `untime` complexity analyzer

This file embeds the metrics engine of the repository (src/untime/rules.py and
src/untime/complexity.py) in Lean 4 and proves/refutes the frozen claims about
its natural-language specification.

Modelling conventions:
* Python AST nodes become the inductive `Node`.  Only the kinds the eleven
  rules distinguish (`ast.If`, `ast.For`, `ast.While`, `ast.With`, `ast.Try`,
  `ast.ExceptHandler`, `ast.ClassDef`, `ast.FunctionDef`, `ast.Name`,
  `ast.Attribute`, `ast.Global`, `ast.Import`, `ast.ImportFrom`) are
  distinguished; every other node (Module, Pass, Expr, Assign, ...) is an
  opaque container `Node.other` whose children are still traversed, exactly
  as the `isinstance` dispatch in the source falls through to the generic
  child traversal.
* Python floats become `ℚ`.  Every arithmetic operation the rules perform
  (division by a small constant, `min`, `max`, `+`, `-`) is exact on the
  values the rules produce, so `ℚ` reproduces the float results exactly.
* `ast.walk` visits every node of the subtree exactly once (in BFS order);
  all its uses in the source build sets or sums of per-node values, so only
  the multiset of visited nodes matters and `walk` is embedded as a preorder
  listing of the subtree.
* `ast.iter_child_nodes` yields the direct children; `Node.children` embeds it.
* Python sets of strings become `List String` used up to membership.
* The attribute access `node.id` is only defined for `ast.Name`; on every
  other node (in particular `ast.Global`, whose field is `names`) it raises
  `AttributeError`.  It is embedded as `Node.idAttr : Node → Option String`,
  `none` standing for the raised exception, and the set comprehension that
  performs the access is embedded in the `Option` monad.
-/

/-- The control-flow statement kinds the rules test with `isinstance`:
`ast.If`, `ast.For`, `ast.While`, `ast.With`, `ast.Try`, `ast.ExceptHandler`. -/
inductive CtrlKind where
  | ifS | forS | whileS | withS | tryS | exceptH
deriving DecidableEq, Repr

/-- `isinstance(node, (ast.If, ast.For, ast.While, ast.With, ast.Try))` — the
`isinstance` list of `calculate_nesting_depth`, which, unlike the cyclomatic
rule's list, does NOT include `ast.ExceptHandler`. -/
def CtrlKind.isNesting : CtrlKind → Bool
  | .exceptH => false
  | _ => true

/-- A Python AST node, restricted to the kinds the eleven rules distinguish.

* `ctrl k cs` — an `If`/`For`/`While`/`With`/`Try`/`ExceptHandler` statement;
  `cs` are its children (test, body, orelse, ... flattened: no rule
  distinguishes among them).
* `classDef name bases body` — `ast.ClassDef`: the rules use `node.name`,
  `node.bases` and `node.body`.
* `functionDef name params body` — `ast.FunctionDef`: the rules use
  `node.name`, `node.args.args` (positional parameters, kept as their names)
  and `node.body`.
* `nameRef id` — `ast.Name` with its `id`.
* `attributeAccess attr cs` — `ast.Attribute` with its `attr` string and the
  value expression among `cs`.
* `globalDecl names` — `ast.Global` with its `names` list (it has NO `id`).
* `importStmt isFrom` — `ast.Import` (`isFrom = false`) or `ast.ImportFrom`.
* `other cs` — any other node (`Module`, `Pass`, `Expr`, `Assign`, ...): an
  opaque container whose children are still traversed. -/
inductive Node where
  | ctrl (k : CtrlKind) (children : List Node)
  | classDef (name : String) (bases : List Node) (body : List Node)
  | functionDef (name : String) (params : List String) (body : List Node)
  | nameRef (id : String)
  | attributeAccess (attr : String) (children : List Node)
  | globalDecl (names : List String)
  | importStmt (isFrom : Bool)
  | other (children : List Node)

namespace Node

/-- `ast.iter_child_nodes`: the direct child nodes. -/
def children : Node → List Node
  | .ctrl _ cs => cs
  | .classDef _ bases body => bases ++ body
  | .functionDef _ _ body => body
  | .nameRef _ => []
  | .attributeAccess _ cs => cs
  | .globalDecl _ => []
  | .importStmt _ => []
  | .other cs => cs

/-- Accessing `.id` on a node: only `ast.Name` has an `id` field; on any other
node — in particular `ast.Global`, whose field is `names` — the attribute
access raises `AttributeError` (embedded as `none`). -/
def idAttr : Node → Option String
  | .nameRef i => some i
  | _ => none

/-- `isinstance(node, ast.Global)`. -/
def isGlobal : Node → Bool
  | .globalDecl _ => true
  | _ => false

/-- `isinstance(node, ast.FunctionDef)`. -/
def isFunctionDef : Node → Bool
  | .functionDef _ _ _ => true
  | _ => false

/-- `isinstance(node, ast.ClassDef)`. -/
def isClassDef : Node → Bool
  | .classDef _ _ _ => true
  | _ => false

end Node

mutual
/-- `ast.walk(node)`: every node of the subtree rooted at `node`, the root
included, each exactly once.  (The source's BFS order is irrelevant: every
use builds a set or a sum of per-node values.) -/
def walk : Node → List Node
  | .ctrl k cs => .ctrl k cs :: walkList cs
  | .classDef nm bases body => .classDef nm bases body :: (walkList bases ++ walkList body)
  | .functionDef nm ps body => .functionDef nm ps body :: walkList body
  | .nameRef i => [.nameRef i]
  | .attributeAccess a cs => .attributeAccess a cs :: walkList cs
  | .globalDecl ns => [.globalDecl ns]
  | .importStmt b => [.importStmt b]
  | .other cs => .other cs :: walkList cs

/-- `walk` mapped over a list of nodes and concatenated. -/
def walkList : List Node → List Node
  | [] => []
  | n :: ns => walk n ++ walkList ns
end

mutual
/-- `calculate_cyclomatic_complexity` (rules.py): starts `complexity = 0`,
adds 1 if the node is an `If`/`For`/`While`/`With`/`Try`/`ExceptHandler`,
adds the recursive value of every child, and returns
`min(complexity / 10.0, 1.0)`.  Note the recursion: each child's contribution
is itself already divided by 10 and capped. -/
def calculate_cyclomatic_complexity : Node → ℚ
  | .ctrl _ cs => min ((1 + cycList cs) / 10) 1
  | .classDef _ bases body => min ((0 + (cycList bases + cycList body)) / 10) 1
  | .functionDef _ _ body => min ((0 + cycList body) / 10) 1
  | .nameRef _ => min ((0 : ℚ) / 10) 1
  | .attributeAccess _ cs => min ((0 + cycList cs) / 10) 1
  | .globalDecl _ => min ((0 : ℚ) / 10) 1
  | .importStmt _ => min ((0 : ℚ) / 10) 1
  | .other cs => min ((0 + cycList cs) / 10) 1

/-- Sum of `calculate_cyclomatic_complexity` over a list of children. -/
def cycList : List Node → ℚ
  | [] => 0
  | n :: ns => calculate_cyclomatic_complexity n + cycList ns
end

mutual
/-- `calculate_nesting_depth(node, current_depth)` (rules.py): increments
`current_depth` if the node is an `If`/`For`/`While`/`With`/`Try`
(`ExceptHandler` is NOT in this rule's `isinstance` list), takes the max of
the incremented depth and every child's recursive value at that depth, and
returns `min(max_depth / 5.0, 1.0)`. -/
def calculate_nesting_depth : Node → ℚ → ℚ
  | .ctrl k cs, d => min (nestMax cs (if k.isNesting then d + 1 else d) / 5) 1
  | .classDef _ bases body, d => min (max (nestMax bases d) (nestMax body d) / 5) 1
  | .functionDef _ _ body, d => min (nestMax body d / 5) 1
  | .nameRef _, d => min (d / 5) 1
  | .attributeAccess _ cs, d => min (nestMax cs d / 5) 1
  | .globalDecl _, d => min (d / 5) 1
  | .importStmt _, d => min (d / 5) 1
  | .other cs, d => min (nestMax cs d / 5) 1

/-- `max_depth = current_depth` followed by the
`max_depth = max(max_depth, calculate_nesting_depth(child, current_depth))`
loop: the max of `d` and every listed node's value at depth `d`. -/
def nestMax : List Node → ℚ → ℚ
  | [], d => d
  | n :: ns, d => max (calculate_nesting_depth n d) (nestMax ns d)
end

mutual
/-- `calculate_inheritance_depth(node, depth)` (rules.py): at a `ClassDef`
the running depth increases by `len(node.bases)`; the result is the max of
the running depth and every child's recursive value at that depth, returned
as `min(max_depth / 5.0, 1.0)`. -/
def calculate_inheritance_depth : Node → ℚ → ℚ
  | .ctrl _ cs, d => min (inhMax cs d / 5) 1
  | .classDef _ bases body, d =>
      min (max (inhMax bases (d + bases.length)) (inhMax body (d + bases.length)) / 5) 1
  | .functionDef _ _ body, d => min (inhMax body d / 5) 1
  | .nameRef _, d => min (d / 5) 1
  | .attributeAccess _ cs, d => min (inhMax cs d / 5) 1
  | .globalDecl _, d => min (d / 5) 1
  | .importStmt _, d => min (d / 5) 1
  | .other cs, d => min (inhMax cs d / 5) 1

/-- The `max_depth` fold of `calculate_inheritance_depth` over a list. -/
def inhMax : List Node → ℚ → ℚ
  | [], d => d
  | n :: ns, d => max (calculate_inheritance_depth n d) (inhMax ns d)
end

/-- `calculate_function_length` (rules.py): for a `FunctionDef`,
`min(len(node.body) / 50.0, 1.0)`; `0.0` for every other node. -/
def calculate_function_length : Node → ℚ
  | .functionDef _ _ body => min ((body.length : ℚ) / 50) 1
  | _ => 0

/-- `calculate_parameter_count` (rules.py): for a `FunctionDef`,
`min(len(node.args.args) / 10.0, 1.0)`; `0.0` for every other node. -/
def calculate_parameter_count : Node → ℚ
  | .functionDef _ params _ => min ((params.length : ℚ) / 10) 1
  | _ => 0

/-- `calculate_class_coupling(node, class_names)` (rules.py): for a
`ClassDef`, count the `ast.Name` nodes in `ast.walk(node)` whose `id` is in
`class_names`, and return `min(count / 10.0, 1.0)`; `0.0` otherwise. -/
def calculate_class_coupling (node : Node) (class_names : List String) : ℚ :=
  match node with
  | n@(.classDef _ _ _) =>
      let num_references := ((walk n).filter fun c =>
        match c with
        | .nameRef i => decide (i ∈ class_names)
        | _ => false).length
      min ((num_references : ℚ) / 10) 1
  | _ => 0

/-- Python's `x in s` for `x` an AST node and `s` a set of strings: membership
tests `x == elem` for each element; `ast.AST` does not define `__eq__`, so an
AST node compares unequal to every `str` and the test is always `False`. -/
def nodeEqStr (_ : Node) (_ : String) : Bool := false

/-- `calculate_cohesion` (rules.py): for a `ClassDef`, `methods` are the
`FunctionDef`s directly in `node.body` (0 methods → `0.0`); `attributes` is
the set of `n.attr` for every `ast.Attribute` in `ast.walk(node)`;
`shared_attributes` counts the methods for which
`any(attr in attributes for attr in ast.walk(method))` — note `attr` ranges
over AST NODES of the method's subtree, and a node is never a member of a set
of strings (`nodeEqStr`), so each `any` is `False`; the result is
`1.0 - shared_attributes / len(methods)`. -/
def calculate_cohesion (node : Node) : ℚ :=
  match node with
  | n@(.classDef _ _ body) =>
      let methods := body.filter Node.isFunctionDef
      if methods.length = 0 then 0
      else
        let attributes := (walk n).filterMap fun c =>
          match c with
          | .attributeAccess a _ => some a
          | _ => none
        let shared_attributes := (methods.filter fun m =>
          (walk m).any fun attr => attributes.any (nodeEqStr attr)).length
        1 - ((shared_attributes : ℚ) / (methods.length : ℚ))
  | _ => 0

/-- `calculate_global_variable_usage(node, global_vars)` (rules.py): count
the `ast.Name` nodes in `ast.walk(node)` whose `id` is in `global_vars`, and
return `min(count / 10.0, 1.0)`. -/
def calculate_global_variable_usage (node : Node) (global_vars : List String) : ℚ :=
  let usage_count := ((walk node).filter fun c =>
    match c with
    | .nameRef i => decide (i ∈ global_vars)
    | _ => false).length
  min ((usage_count : ℚ) / 10) 1

/-- `calculate_number_of_interfaces` (rules.py): for a `ClassDef`,
`min(len(node.bases) / 5.0, 1.0)`; `0.0` otherwise. -/
def calculate_number_of_interfaces : Node → ℚ
  | .classDef _ bases _ => min ((bases.length : ℚ) / 5) 1
  | _ => 0

/-- `calculate_polymorphism(node, class_methods)` (rules.py): for a
`ClassDef`, count the `FunctionDef`s directly in `node.body` whose `name` is
in `class_methods`, and return `min(count / 5.0, 1.0)`; `0.0` otherwise. -/
def calculate_polymorphism (node : Node) (class_methods : List String) : ℚ :=
  match node with
  | .classDef _ _ body =>
      let overridden_methods := (body.filter fun child =>
        match child with
        | .functionDef nm _ _ => decide (nm ∈ class_methods)
        | _ => false).length
      min ((overridden_methods : ℚ) / 5) 1
  | _ => 0

/-- `calculate_import_count` (rules.py): 1 for an `ast.Import` or
`ast.ImportFrom` node, 0 otherwise. -/
def calculate_import_count : Node → Nat
  | .importStmt _ => 1
  | _ => 0

/-- `calculate_import_complexity` (rules.py): the sum of
`calculate_import_count` over `ast.walk(tree)`, returned as
`min(count / 20.0, 1.0)`. -/
def calculate_import_complexity (tree : Node) : ℚ :=
  let import_count := ((walk tree).map calculate_import_count).sum
  min ((import_count : ℚ) / 20) 1

/-- The `class_names` fact set of `analyze_file` (complexity.py):
`{node.name for node in ast.walk(tree) if isinstance(node, ast.ClassDef)}`. -/
def class_names (tree : Node) : List String :=
  (walk tree).filterMap fun n =>
    match n with
    | .classDef nm _ _ => some nm
    | _ => none

/-- The `global_vars` fact set of `analyze_file` (complexity.py):
`{node.id for node in ast.walk(tree) if isinstance(node, ast.Global)}`.
The comprehension accesses `node.id` on each `ast.Global` node, and
`ast.Global` has no `id` field (its field is `names`), so the access raises
`AttributeError` — embedded in the `Option` monad via `Node.idAttr`. -/
def global_vars (tree : Node) : Option (List String) :=
  ((walk tree).filter Node.isGlobal).mapM Node.idAttr

/-- The `class_methods` fact set of `analyze_file` (complexity.py): the names
of the `FunctionDef`s directly in the body of ANY `ClassDef` of the whole
tree — one flat whole-program set. -/
def class_methods (tree : Node) : List String :=
  (walk tree).flatMap fun cls =>
    match cls with
    | .classDef _ _ body => body.filterMap fun method =>
        match method with
        | .functionDef nm _ _ => some nm
        | _ => none
    | _ => []

/-- The `"function_length"` entry of the `scores` dict of `analyze_file`
(complexity.py): `sum(calculate_function_length(node) for node in
ast.walk(tree))`. -/
def function_length_metric (tree : Node) : ℚ :=
  ((walk tree).map calculate_function_length).sum

/-- The `scores` dict of `analyze_file` (complexity.py), as the association
list of its key/value pairs in construction order.  The keys are the string
literals of the source; note the last one is `"calculate_import_complexity"`
(the source uses the function's name, not `"import_complexity"`). -/
def score_record (tree : Node) (gv : List String) : List (String × ℚ) :=
  [("cyclomatic_complexity", calculate_cyclomatic_complexity tree),
   ("nesting_depth", calculate_nesting_depth tree 0),
   ("function_length", function_length_metric tree),
   ("parameter_count", ((walk tree).map calculate_parameter_count).sum),
   ("class_coupling",
      ((walk tree).map fun n => calculate_class_coupling n (class_names tree)).sum),
   ("cohesion", ((walk tree).map calculate_cohesion).sum),
   ("global_variable_usage", calculate_global_variable_usage tree gv),
   ("inheritance_depth", calculate_inheritance_depth tree 0),
   ("number_of_interfaces", ((walk tree).map calculate_number_of_interfaces).sum),
   ("polymorphism",
      ((walk tree).map fun n => calculate_polymorphism n (class_methods tree)).sum),
   ("calculate_import_complexity", calculate_import_complexity tree)]

/-- `analyze_file` (complexity.py) from the parsed tree on: builds the three
fact sets (the `global_vars` comprehension can raise `AttributeError`, hence
the `Option`), then the `scores` dict, then
`total_score = sum(scores.values()) / len(scores)`. -/
def analyze_file (tree : Node) : Option (List (String × ℚ) × ℚ) :=
  match global_vars tree with
  | none => none
  | some gv =>
      let scores := score_record tree gv
      some (scores, (scores.map Prod.snd).sum / scores.length)

/-- An error escaping `analyze_file`: the `ast.parse` failure, or the
`AttributeError` of the `global_vars` comprehension. -/
inductive AnalysisError where
  | parseError (msg : String)
  | attributeError
deriving DecidableEq, Repr

/-- The whole analysis operation: `tree = ast.parse(source.read())` either
raises (the parse error propagates to the caller before any fact set or
metric is computed) or yields the tree handed to the rest of
`analyze_file`.  The parser itself is external; the operation consumes its
outcome. -/
def analyze_source (parsed : Except String Node) : Except AnalysisError (List (String × ℚ) × ℚ) :=
  match parsed with
  | .error e => .error (.parseError e)
  | .ok tree =>
      match analyze_file tree with
      | none => .error .attributeError
      | some r => .ok r

/-! ## Concrete input trees used by the theorems -/

/-- A `pass` statement (an opaque node with no children). -/
def passStmt : Node := Node.other []

/-- `if x: pass` — an `ast.If` whose children are the test `Name "x"` and the
body `[Pass]`; it contains no further control-flow nodes. -/
def simpleIf : Node := Node.ctrl CtrlKind.ifS [Node.nameRef "x", passStmt]

/-- A module containing exactly 10 non-nested top-level `if` statements. -/
def tenConditionals : Node := Node.other (List.replicate 10 simpleIf)

/-- `def f(): ...` — a function whose body has exactly 51 statements. -/
def fnFiftyOne : Node := Node.functionDef "f" [] (List.replicate 51 passStmt)

/-- `def g(): ...` — an unrelated function whose body has 10 statements. -/
def fnTen : Node := Node.functionDef "g" [] (List.replicate 10 passStmt)

/-- A module containing only the 51-statement function `f`. -/
def moduleF : Node := Node.other [fnFiftyOne]

/-- The same module with the unrelated 10-statement function `g` added. -/
def moduleFG : Node := Node.other [fnFiftyOne, fnTen]

/-- The expression statement `self.x`. -/
def selfX : Node := Node.other [Node.attributeAccess "x" [Node.nameRef "self"]]

/-- `class C:` with two methods `f` and `g`, both accessing the commonly-used
attribute `x` (each body is the single statement `self.x`). -/
def sharedAttrClass : Node :=
  Node.classDef "C" []
    [Node.functionDef "f" ["self"] [selfX],
     Node.functionDef "g" ["self"] [selfX]]

/-- A module whose only statement is `global x`. -/
def globalModule : Node := Node.other [Node.globalDecl ["x"]]

/-- An empty module (a source file with no statements). -/
def emptyModule : Node := Node.other []

/-- A module with a single class `C` holding one method `m` whose name occurs
nowhere else in the program. -/
def singleMethodModule : Node :=
  Node.other [Node.classDef "C" [] [Node.functionDef "m" ["self"] [passStmt]]]

/-! ## Helper lemmas -/

/-- `calculate_function_length` vanishes on every node that is not a
`FunctionDef`. -/
theorem calculate_function_length_eq_zero (n : Node) (h : n.isFunctionDef = false) :
    calculate_function_length n = 0 := by
  cases n <;> simp_all [calculate_function_length, Node.isFunctionDef]

/-- Restricting the `function_length` sum to the `FunctionDef` nodes does not
change it: every other node contributes `0.0`. -/
theorem sum_function_length_filter (l : List Node) :
    ((l.filter Node.isFunctionDef).map calculate_function_length).sum
      = (l.map calculate_function_length).sum := by
  induction l with
  | nil => simp
  | cons n ns ih =>
      cases hn : n.isFunctionDef with
      | true => simp [List.filter_cons, hn, ih]
      | false =>
          simp [List.filter_cons, hn, ih, calculate_function_length_eq_zero n hn]

mutual
/-- The `complexity` accumulator of `calculate_cyclomatic_complexity` is a sum
of nonnegative terms, so the rule's value is nonnegative. -/
theorem calculate_cyclomatic_complexity_nonneg :
    (n : Node) → 0 ≤ calculate_cyclomatic_complexity n
  | .ctrl _ cs => by
      simp only [calculate_cyclomatic_complexity]
      exact le_min (div_nonneg (by linarith [cycList_nonneg cs]) (by norm_num)) zero_le_one
  | .classDef _ bases body => by
      simp only [calculate_cyclomatic_complexity]
      exact le_min
        (div_nonneg (by linarith [cycList_nonneg bases, cycList_nonneg body]) (by norm_num))
        zero_le_one
  | .functionDef _ _ body => by
      simp only [calculate_cyclomatic_complexity]
      exact le_min (div_nonneg (by linarith [cycList_nonneg body]) (by norm_num)) zero_le_one
  | .nameRef _ => by simp [calculate_cyclomatic_complexity]
  | .attributeAccess _ cs => by
      simp only [calculate_cyclomatic_complexity]
      exact le_min (div_nonneg (by linarith [cycList_nonneg cs]) (by norm_num)) zero_le_one
  | .globalDecl _ => by simp [calculate_cyclomatic_complexity]
  | .importStmt _ => by simp [calculate_cyclomatic_complexity]
  | .other cs => by
      simp only [calculate_cyclomatic_complexity]
      exact le_min (div_nonneg (by linarith [cycList_nonneg cs]) (by norm_num)) zero_le_one

/-- The summed child contributions of the cyclomatic rule are nonnegative. -/
theorem cycList_nonneg : (l : List Node) → 0 ≤ cycList l
  | [] => le_refl 0
  | n :: ns => by
      simp only [cycList]
      linarith [calculate_cyclomatic_complexity_nonneg n, cycList_nonneg ns]
end

/-- `calculate_cyclomatic_complexity` never exceeds the `min(·, 1.0)` cap. -/
theorem calculate_cyclomatic_complexity_le_one (n : Node) :
    calculate_cyclomatic_complexity n ≤ 1 := by
  cases n <;> simp only [calculate_cyclomatic_complexity] <;> exact min_le_right _ _

mutual
/-- At a nonnegative running depth, `calculate_nesting_depth` is
nonnegative. -/
theorem calculate_nesting_depth_nonneg :
    (n : Node) → (d : ℚ) → 0 ≤ d → 0 ≤ calculate_nesting_depth n d
  | .ctrl k cs, d, hd => by
      simp only [calculate_nesting_depth]
      have hd2 : 0 ≤ (if k.isNesting then d + 1 else d) := by
        split <;> linarith
      exact le_min (div_nonneg (nestMax_nonneg cs _ hd2) (by norm_num)) zero_le_one
  | .classDef _ bases body, d, hd => by
      simp only [calculate_nesting_depth]
      exact le_min
        (div_nonneg (le_max_of_le_left (nestMax_nonneg bases d hd)) (by norm_num)) zero_le_one
  | .functionDef _ _ body, d, hd => by
      simp only [calculate_nesting_depth]
      exact le_min (div_nonneg (nestMax_nonneg body d hd) (by norm_num)) zero_le_one
  | .nameRef _, d, hd => by
      simp only [calculate_nesting_depth]
      exact le_min (div_nonneg hd (by norm_num)) zero_le_one
  | .attributeAccess _ cs, d, hd => by
      simp only [calculate_nesting_depth]
      exact le_min (div_nonneg (nestMax_nonneg cs d hd) (by norm_num)) zero_le_one
  | .globalDecl _, d, hd => by
      simp only [calculate_nesting_depth]
      exact le_min (div_nonneg hd (by norm_num)) zero_le_one
  | .importStmt _, d, hd => by
      simp only [calculate_nesting_depth]
      exact le_min (div_nonneg hd (by norm_num)) zero_le_one
  | .other cs, d, hd => by
      simp only [calculate_nesting_depth]
      exact le_min (div_nonneg (nestMax_nonneg cs d hd) (by norm_num)) zero_le_one

/-- The `max_depth` fold of the nesting rule is nonnegative whenever the
incoming depth is. -/
theorem nestMax_nonneg : (l : List Node) → (d : ℚ) → 0 ≤ d → 0 ≤ nestMax l d
  | [], d, hd => hd
  | n :: ns, d, hd => by
      simp only [nestMax]
      exact le_max_of_le_right (nestMax_nonneg ns d hd)
end

/-- `calculate_nesting_depth` never exceeds the `min(·, 1.0)` cap. -/
theorem calculate_nesting_depth_le_one (n : Node) (d : ℚ) :
    calculate_nesting_depth n d ≤ 1 := by
  cases n <;> simp only [calculate_nesting_depth] <;> exact min_le_right _ _

/-- Every method declared directly in the body of a class that occurs in the
tree has its name in the whole-program `class_methods` fact set. -/
theorem mem_class_methods_of_mem_body {tree : Node} {nm : String}
    {bases body : List Node} (hcls : Node.classDef nm bases body ∈ walk tree)
    {mnm : String} {ps : List String} {bs : List Node}
    (hm : Node.functionDef mnm ps bs ∈ body) :
    mnm ∈ class_methods tree := by
  unfold class_methods
  rw [List.mem_flatMap]
  exact ⟨Node.classDef nm bases body, hcls,
    List.mem_filterMap.mpr ⟨Node.functionDef mnm ps bs, hm, rfl⟩⟩

/-! ## Claim theorems -/

/-- C1 (code_bug): the claim says the analysis completes without raising on
every well-formed tree, in particular on inputs containing a
global-declaration statement.  The code contradicts it: the `global_vars`
comprehension of `analyze_file` accesses `node.id` on each `ast.Global` node,
and `ast.Global` has no `id` field (its identifiers are in `names`), so a
module whose only statement is `global x` makes `analyze_file` raise
`AttributeError` (embedded: return `none`) before any score is produced. -/
theorem analyze_file_crashes_on_global_decl :
    analyze_file globalModule = none := rfl

/-- C2 counterexample: on a module with exactly 10 non-nested top-level `if`
statements (each with an atomic test and a one-statement body), the code
reports cyclomatic_complexity `0.1`, which is strictly below the `1.0` the
claim asserts. -/
theorem cyclomatic_ten_conditionals_not_one :
    calculate_cyclomatic_complexity tenConditionals = 1 / 10 ∧
    calculate_cyclomatic_complexity tenConditionals < 1 := by
  have h : calculate_cyclomatic_complexity tenConditionals = 1 / 10 := by
    norm_num [calculate_cyclomatic_complexity, cycList, tenConditionals, simpleIf,
      passStmt, List.replicate]
  exact ⟨h, by rw [h]; norm_num⟩

/-- C2 (corrected): `calculate_cyclomatic_complexity` is recursive — a node's
value is `min((1-if-it-is-a-branch-node + sum of its children's
already-normalized values) / 10, 1.0)`, so the division by 10 and the cap
apply at every level of the tree rather than once to a whole-tree count; in
particular the 10-conditional module scores `0.1`, not `1.0`. -/
theorem cyclomatic_recursive_normalization :
    (∀ (k : CtrlKind) (cs : List Node),
        calculate_cyclomatic_complexity (Node.ctrl k cs) = min ((1 + cycList cs) / 10) 1) ∧
    calculate_cyclomatic_complexity tenConditionals = 1 / 10 := by
  refine ⟨fun k cs => rfl, ?_⟩
  norm_num [calculate_cyclomatic_complexity, cycList, tenConditionals, simpleIf,
    passStmt, List.replicate]

/-- C3 counterexample: the score record produced for an (empty) module has no
key `"import_complexity"`; the import metric is stored under the key
`"calculate_import_complexity"` instead. -/
theorem score_record_missing_import_complexity_key :
    ((score_record emptyModule []).map Prod.fst).count "import_complexity" = 0 ∧
    ((score_record emptyModule []).map Prod.fst).count "calculate_import_complexity" = 1 := by
  constructor <;> rfl

/-- C3 (corrected): for every analyzed tree the score record's keys are, in
order, the first ten metric names of §4.2 followed by
`"calculate_import_complexity"` — the import metric's key is the scoring
function's name, not `"import_complexity"`. -/
theorem score_record_keys (tree : Node) (gv : List String) :
    (score_record tree gv).map Prod.fst
      = ["cyclomatic_complexity", "nesting_depth", "function_length", "parameter_count",
         "class_coupling", "cohesion", "global_variable_usage", "inheritance_depth",
         "number_of_interfaces", "polymorphism", "calculate_import_complexity"] := rfl

/-- C4 (code_bug): the claim (and the spec's own test case) says a class whose
two methods both access a commonly-used attribute contributes cohesion `0.0`.
The code instead yields `1.0`: its `shared_attributes` test asks whether an
AST node of `ast.walk(method)` is a member of a set of attribute-name
STRINGS, which is never true, so `shared_attributes` is always `0` and every
class with at least one method scores `1.0 - 0 = 1.0`.  (The zero-method part
of the claim does hold: such a class contributes `0.0`.) -/
theorem cohesion_shared_attribute_class_scores_one :
    calculate_cohesion sharedAttrClass = 1 ∧
    calculate_cohesion (Node.classDef "D" [] []) = 0 := by
  constructor
  · norm_num [calculate_cohesion, sharedAttrClass, selfX, walk, walkList,
      Node.isFunctionDef, nodeEqStr, List.filter]
  · norm_num [calculate_cohesion, Node.isFunctionDef, List.filter]

/-- C5 (confirmed): the `function_length` metric is the sum over all
`FunctionDef` nodes of the tree of `min(directBodyStatementCount / 50, 1.0)`
(every non-function node contributes `0.0`); a module with one 51-statement
function scores exactly `1.0`, and adding an unrelated top-level function
with a 10-statement body raises it to `1.2`. -/
theorem function_length_sums_per_function :
    (∀ tree : Node, function_length_metric tree
        = (((walk tree).filter Node.isFunctionDef).map calculate_function_length).sum) ∧
    function_length_metric moduleF = 1 ∧
    function_length_metric moduleFG = 6 / 5 := by
  refine ⟨fun tree => (sum_function_length_filter (walk tree)).symm, ?_, ?_⟩
  · norm_num [function_length_metric, moduleF, fnFiftyOne, passStmt, walk, walkList,
      calculate_function_length, List.replicate]
  · norm_num [function_length_metric, moduleFG, fnFiftyOne, fnTen, passStmt, walk, walkList,
      calculate_function_length, List.replicate]

/-- C6 (confirmed): for every input tree (and any `global_vars` fact set),
each of the four whole-tree metrics — cyclomatic complexity, nesting depth
(started at depth 0 as in `analyze_file`), global-variable usage and import
complexity — lies in the closed interval `[0.0, 1.0]`. -/
theorem whole_tree_metrics_bounded (tree : Node) (gv : List String) :
    (0 ≤ calculate_cyclomatic_complexity tree ∧ calculate_cyclomatic_complexity tree ≤ 1) ∧
    (0 ≤ calculate_nesting_depth tree 0 ∧ calculate_nesting_depth tree 0 ≤ 1) ∧
    (0 ≤ calculate_global_variable_usage tree gv ∧
      calculate_global_variable_usage tree gv ≤ 1) ∧
    (0 ≤ calculate_import_complexity tree ∧ calculate_import_complexity tree ≤ 1) := by
  refine ⟨⟨calculate_cyclomatic_complexity_nonneg tree,
      calculate_cyclomatic_complexity_le_one tree⟩,
    ⟨calculate_nesting_depth_nonneg tree 0 le_rfl, calculate_nesting_depth_le_one tree 0⟩,
    ⟨?_, min_le_right _ _⟩, ⟨?_, min_le_right _ _⟩⟩
  · exact le_min (div_nonneg (Nat.cast_nonneg _) (by norm_num)) zero_le_one
  · exact le_min (div_nonneg (Nat.cast_nonneg _) (by norm_num)) zero_le_one

/-- C7 (confirmed): analyzing an empty module (a tree with no statements)
succeeds and yields a score record in which every one of the 11 metric values
is `0.0`, with a total score of `0.0`. -/
theorem empty_module_all_scores_zero :
    analyze_file emptyModule
      = some ([("cyclomatic_complexity", 0), ("nesting_depth", 0), ("function_length", 0),
               ("parameter_count", 0), ("class_coupling", 0), ("cohesion", 0),
               ("global_variable_usage", 0), ("inheritance_depth", 0),
               ("number_of_interfaces", 0), ("polymorphism", 0),
               ("calculate_import_complexity", 0)], 0) := by
  norm_num [analyze_file, global_vars, score_record, emptyModule, walk, walkList,
    calculate_cyclomatic_complexity, cycList, calculate_nesting_depth, nestMax,
    function_length_metric, calculate_function_length, calculate_parameter_count,
    calculate_class_coupling, class_names, calculate_cohesion,
    calculate_global_variable_usage, calculate_inheritance_depth, inhMax,
    calculate_number_of_interfaces, calculate_polymorphism, class_methods,
    calculate_import_complexity, calculate_import_count, Node.isGlobal,
    List.mapM, List.mapM.loop]

/-- C8 (confirmed): when the source text fails to parse, the analysis aborts
with exactly that parse error surfaced to the caller and produces no score
record — `tree = ast.parse(...)` is the first statement of `analyze_file`,
so no fact set or metric is computed beforehand. -/
theorem parse_failure_aborts_analysis (msg : String) :
    analyze_source (Except.error msg) = Except.error (AnalysisError.parseError msg) := rfl

/-- C9 (confirmed): the analysis is deterministic — it is a pure function of
the parse outcome of the source text, carrying no state between invocations,
so two invocations on identical input produce identical score records and
total scores. -/
theorem analysis_deterministic (p q : Except String Node) (h : p = q) :
    analyze_source p = analyze_source q := by rw [h]

/-- Witness for C9: the two analyses of the same (empty-module) parse outcome
coincide. -/
theorem analysis_deterministic_witness :
    analyze_source (Except.ok emptyModule) = analyze_source (Except.ok emptyModule) :=
  analysis_deterministic (Except.ok emptyModule) (Except.ok emptyModule) rfl

/-- C10 (confirmed): for every class definition occurring in the tree, the
per-class polymorphism term equals `min(m / 5, 1.0)` where `m` is the number
of functions defined directly in that class's body — because the flat
whole-program `class_methods` set necessarily contains every direct method's
own name, every direct method counts as "overridden" regardless of the rest
of the program. -/
theorem polymorphism_counts_all_direct_methods (tree : Node) (nm : String)
    (bases body : List Node) (h : Node.classDef nm bases body ∈ walk tree) :
    calculate_polymorphism (Node.classDef nm bases body) (class_methods tree)
      = min (((body.filter Node.isFunctionDef).length : ℚ) / 5) 1 := by
  have hfilter : (body.filter fun child =>
      match child with
      | Node.functionDef mnm _ _ => decide (mnm ∈ class_methods tree)
      | _ => false) = body.filter Node.isFunctionDef := by
    apply List.filter_congr
    intro m hm
    cases m with
    | functionDef mnm ps bs =>
        have hmem := mem_class_methods_of_mem_body h hm
        simp [Node.isFunctionDef, hmem]
    | ctrl k cs => rfl
    | classDef a b c => rfl
    | nameRef i => rfl
    | attributeAccess a cs => rfl
    | globalDecl ns => rfl
    | importStmt b => rfl
    | other cs => rfl
  simp only [calculate_polymorphism]
  rw [hfilter]

/-- Witness for C10: in a module whose single class `C` has one method `m`
whose name occurs nowhere else, the class's polymorphism term is still
`min(1 / 5, 1.0) = 0.2`. -/
theorem polymorphism_counts_all_direct_methods_witness :
    calculate_polymorphism (Node.classDef "C" [] [Node.functionDef "m" ["self"] [passStmt]])
        (class_methods singleMethodModule) = 1 / 5 := by
  have h := polymorphism_counts_all_direct_methods singleMethodModule "C" []
    [Node.functionDef "m" ["self"] [passStmt]]
    (by simp [singleMethodModule, walk, walkList, passStmt])
  rw [h]
  norm_num [Node.isFunctionDef, List.filter]
